import Mathlib

/-!
# Lunar lander: kinematic entity model and game loop

A shallow embedding of `Entity.h`, `entity.cpp` and `main.cpp`.

* In the first embedding C++ `float` values are exact rationals (`ℚ`), so `0.98f` is
  `49/50`, `-0.5f` is `-1/2` and `0.01f` is `1/100`: it carries the statements made
  over exact arithmetic and those on the control flow of the game loop.
* The second embedding (`F32`, `Entity32`) repeats `check_collision` and
  `Entity::update` with every operation rounded to binary32, with infinities and
  NaN: it carries the statements that depend on rounding or overflow.
* Objects reached through pointers (`Entity*`) are modelled by value; the global
  variables of `main.cpp` that the game logic reads or writes are gathered in
  `Globals` and passed explicitly.
* The readings of the outside world (`SDL_GetTicks`, `SDL_PollEvent`,
  `SDL_GetKeyboardState`) are arguments of the functions that read them.
* Rendering (`render`, `draw_text`, ...) is not modelled.
-/

namespace LunarLander

/-! ## glm vectors and matrices -/

/-- The type `glm::vec3` with exact components. -/
structure Vec3 where
  x : ℚ
  y : ℚ
  z : ℚ
deriving DecidableEq

namespace Vec3

/-- The constructor `glm::vec3(s)`: every component is `s`. -/
def splat (s : ℚ) : Vec3 := ⟨s, s, s⟩

/-- Componentwise sum, `operator+` of `glm::vec3`. -/
def add (a b : Vec3) : Vec3 := ⟨a.x + b.x, a.y + b.y, a.z + b.z⟩

/-- Product with a scalar, `operator*` of `glm::vec3` and `float`. -/
def scaleBy (a : Vec3) (s : ℚ) : Vec3 := ⟨a.x * s, a.y * s, a.z * s⟩

instance : Add Vec3 := ⟨add⟩
instance : HMul Vec3 ℚ Vec3 := ⟨scaleBy⟩

end Vec3

/-- The type `glm::vec4`. -/
structure Vec4 where
  x : ℚ
  y : ℚ
  z : ℚ
  w : ℚ
deriving DecidableEq

namespace Vec4

/-- Componentwise sum of `glm::vec4`. -/
def add (a b : Vec4) : Vec4 := ⟨a.x + b.x, a.y + b.y, a.z + b.z, a.w + b.w⟩

/-- Product of a `glm::vec4` with a scalar. -/
def scaleBy (a : Vec4) (s : ℚ) : Vec4 := ⟨a.x * s, a.y * s, a.z * s, a.w * s⟩

instance : Add Vec4 := ⟨add⟩
instance : HMul Vec4 ℚ Vec4 := ⟨scaleBy⟩

end Vec4

/-- The type `glm::mat4`, stored by columns as glm does. -/
structure Mat4 where
  c0 : Vec4
  c1 : Vec4
  c2 : Vec4
  c3 : Vec4
deriving DecidableEq

/-- The constructor `glm::mat4(1.0f)`: the identity matrix. -/
def Mat4.identity : Mat4 :=
  ⟨⟨1, 0, 0, 0⟩, ⟨0, 1, 0, 0⟩, ⟨0, 0, 1, 0⟩, ⟨0, 0, 0, 1⟩⟩

/-- The library function `glm::translate(m, v)`: the last column becomes
`m[0]*v.x + m[1]*v.y + m[2]*v.z + m[3]`. -/
def glm_translate (m : Mat4) (v : Vec3) : Mat4 :=
  { m with c3 := m.c0 * v.x + m.c1 * v.y + m.c2 * v.z + m.c3 }

/-- The library function `glm::scale(m, v)`: the first three columns are scaled. -/
def glm_scale (m : Mat4) (v : Vec3) : Mat4 :=
  { m with c0 := m.c0 * v.x, c1 := m.c1 * v.y, c2 := m.c2 * v.z }

/-! ## Entity (`Entity.h`, `entity.cpp`) -/

/-- The enumeration `Animation` of `Entity.h`. -/
inductive Animation where
  | MOVE_STRAIGHT
  | EXPLODE
deriving DecidableEq

/-- The index an `Animation` value has as a C++ enumerator. -/
def Animation.toNat : Animation → ℕ
  | MOVE_STRAIGHT => 0
  | EXPLODE => 1

/-- The data members of class `Entity`. The members `m_gravity` and `m_drag` are
constants (see `Entity.m_gravity`); `m_animation_indices` points into
`m_animations` and is `none` for `nullptr`. -/
structure Entity where
  m_texture_ids : List ℕ
  m_animations : List (List ℤ)
  m_movement : Vec3
  m_position : Vec3
  m_scale : Vec3
  m_model_matrix : Mat4
  m_speed : ℚ
  m_animation_cols : ℤ
  m_animation_frames : ℤ
  m_animation_index : ℤ
  m_animation_rows : ℤ
  m_current_animation : Animation
  m_animation_indices : Option (List ℤ)
  m_animation_time : ℚ
  m_acceleration : Vec3
  m_velocity : Vec3
  m_fuel : ℚ
deriving DecidableEq

namespace Entity

/-- The member `m_gravity = -0.5f`: private, set by its in-class initialiser and
assigned nowhere, so it has this value in every entity. -/
def m_gravity : ℚ := -1 / 2

/-- The member `m_drag = 0.50f`: private, set by its in-class initialiser and
assigned nowhere; no function reads it. -/
def m_drag : ℚ := 1 / 2

/-- The member function `set_animation_state`; both branches of the switch do the same. -/
def set_animation_state (e : Entity) (new_animation : Animation) : Entity :=
  let e := { e with m_current_animation := new_animation }
  let e := { e with m_animation_indices := e.m_animations.get? e.m_current_animation.toNat }
  match new_animation with
  | .MOVE_STRAIGHT =>
    { e with m_animation_frames := 1, m_animation_rows := 1, m_scale := ⟨2, 2, 0⟩ }
  | _ =>
    { e with m_animation_frames := 1, m_animation_rows := 1, m_scale := ⟨2, 2, 0⟩ }

/-- The nine-argument constructor of `Entity`. Its initialiser list leaves
`m_acceleration` and `m_velocity` without a value; the values they happen to
have are the arguments `acceleration0` and `velocity0`. The fuel starts at
`100.0f` by the in-class initialiser. -/
def construct (texture_ids : List ℕ) (speed : ℚ) (animations : List (List ℤ))
    (animation_time : ℚ) (animation_frames animation_index animation_cols
    animation_rows : ℤ) (animation : Animation) (acceleration0 velocity0 : Vec3) : Entity :=
  set_animation_state
    { m_texture_ids := texture_ids
      m_animations := animations
      m_movement := Vec3.splat 0
      m_position := Vec3.splat 0
      m_scale := ⟨1, 1, 0⟩
      m_model_matrix := Mat4.identity
      m_speed := speed
      m_animation_cols := animation_cols
      m_animation_frames := animation_frames
      m_animation_index := animation_index
      m_animation_rows := animation_rows
      m_current_animation := animation
      m_animation_indices := none
      m_animation_time := animation_time
      m_acceleration := acceleration0
      m_velocity := velocity0
      m_fuel := 100 }
    animation

/-- The accessor `get_acceleration`. -/
def get_acceleration (e : Entity) : Vec3 := e.m_acceleration

/-- The mutator `set_acceleration`. -/
def set_acceleration (e : Entity) (new_acceleration : Vec3) : Entity :=
  { e with m_acceleration := new_acceleration }

/-- The accessor `get_fuel`. -/
def get_fuel (e : Entity) : ℚ := e.m_fuel

/-- The accessor `get_position`. -/
def get_position (e : Entity) : Vec3 := e.m_position

/-- The mutator `set_position`. -/
def set_position (e : Entity) (new_position : Vec3) : Entity :=
  { e with m_position := new_position }

/-- The mutator `set_scale`. -/
def set_scale (e : Entity) (new_scale : Vec3) : Entity :=
  { e with m_scale := new_scale }

/-- The member function `consume_fuel`: subtract, then clamp at zero. -/
def consume_fuel (e : Entity) (amount : ℚ) : Entity :=
  let e := { e with m_fuel := e.m_fuel - amount }
  if e.m_fuel < 0 then { e with m_fuel := 0 } else e

/-- The member function `check_collision`: `self` is `this`, and `byy` is the
local `by` of the source (a reserved word here). -/
def check_collision (self other : Entity) : Bool :=
  let posA := self.m_position
  let posB := other.m_position
  let ax := self.m_scale.x / 2
  let ay := self.m_scale.y / 2
  let bx := other.m_scale.x / 2
  let byy := other.m_scale.y / 2
  decide (|posA.x - posB.x| < ax + bx) && decide (|posA.y - posB.y| < ay + byy)

/-- The member function `update`: gravity, movement, position, damping, then the
model matrix (translate, then scale). -/
def update (e : Entity) (delta_time : ℚ) : Entity :=
  -- Apply gravity
  let e := { e with m_acceleration :=
    { e.m_acceleration with y := e.m_acceleration.y + m_gravity * delta_time } }
  -- Update velocity using acceleration
  let e := { e with m_movement := e.m_movement + e.m_acceleration * delta_time }
  -- Update position
  let e := { e with m_position := e.m_position + e.m_movement * e.m_speed * delta_time }
  -- Slowly reduce acceleration
  let e := { e with m_acceleration := e.m_acceleration * (49 / 50 : ℚ) }
  -- Update model matrix
  let e := { e with m_model_matrix := Mat4.identity }
  let e := { e with m_model_matrix := glm_translate e.m_model_matrix e.m_position }
  { e with m_model_matrix := glm_scale e.m_model_matrix e.m_scale }

end Entity

/-! ## Game state and game loop (`main.cpp`) -/

/-- The constant `MILLISECONDS_IN_SECOND`. -/
def MILLISECONDS_IN_SECOND : ℚ := 1000

/-- The enumeration `AppStatus`. -/
inductive AppStatus where
  | RUNNING
  | TERMINATED
deriving DecidableEq

/-- The struct `GameState`; the entities are held by value. -/
structure GameState where
  spaceship : Entity
  asteroids : List Entity
  game_over : Bool
  game_won : Bool
deriving DecidableEq

/-- The global variables of `main.cpp` that `process_input` and `update` use. -/
structure Globals where
  g_game_state : GameState
  g_app_status : AppStatus
  g_previous_ticks : ℚ
deriving DecidableEq

/-- The events `process_input` tells apart: what `event.type` is and, for a key
press, the key symbol `event.key.keysym.sym`. -/
inductive SDL_Event where
  | SDL_QUIT
  | SDL_WINDOWEVENT_CLOSE
  | SDL_KEYDOWN (sym : ℕ)
  | other
deriving DecidableEq

/-- The SDL key symbol of the letter q. -/
def SDLK_q : ℕ := 113

/-- The SDL scancode of the key A. -/
def SDL_SCANCODE_A : ℕ := 4

/-- The SDL scancode of the key D. -/
def SDL_SCANCODE_D : ℕ := 7

/-- The SDL scancode of the key W. -/
def SDL_SCANCODE_W : ℕ := 26

/-- The body of the `switch` in the event loop of `process_input`. -/
def handle_event (status : AppStatus) : SDL_Event → AppStatus
  | .SDL_QUIT => .TERMINATED
  | .SDL_WINDOWEVENT_CLOSE => .TERMINATED
  | .SDL_KEYDOWN sym => if sym = SDLK_q then .TERMINATED else status
  | .other => status

/-- The acceleration `process_input` computes from the old acceleration, the
fuel and the keyboard state (the lines between `get_acceleration` and
`set_acceleration`). -/
def input_acceleration (acceleration : Vec3) (fuel : ℚ) (key_state : ℕ → Bool) : Vec3 :=
  if fuel > 0 then
    let acceleration :=
      if key_state SDL_SCANCODE_A then { acceleration with x := -3 / 2 }
      else if key_state SDL_SCANCODE_D then { acceleration with x := 3 / 2 }
      else { acceleration with x := 0 }
    if key_state SDL_SCANCODE_W then { acceleration with y := 3 / 2 }
    else { acceleration with y := -1 / 2 }
  else
    let acceleration := Vec3.splat 0
    { acceleration with y := -1 / 2 }

/-- The function `process_input`: `events` are the pending events that
`SDL_PollEvent` hands out and `key_state` is the array of `SDL_GetKeyboardState`. -/
def process_input (g : Globals) (events : List SDL_Event) (key_state : ℕ → Bool) : Globals :=
  let g := { g with g_app_status := events.foldl handle_event g.g_app_status }
  let acceleration := g.g_game_state.spaceship.get_acceleration
  let acceleration :=
    input_acceleration acceleration g.g_game_state.spaceship.get_fuel key_state
  { g with g_game_state :=
    { g.g_game_state with
      spaceship := g.g_game_state.spaceship.set_acceleration acceleration } }

/-- The collision loop at the end of `update`: `true` when some asteroid, taken
in order, collides with the spaceship (the loop returns at the first one). -/
def collision_loop (spaceship : Entity) : List Entity → Bool
  | [] => false
  | asteroid :: rest =>
    if spaceship.check_collision asteroid then true else collision_loop spaceship rest

/-- The function `update` of `main.cpp`: `sdl_ticks` is what `SDL_GetTicks()` returns. -/
def update (g : Globals) (sdl_ticks : ℕ) : Globals :=
  if g.g_game_state.game_over then g
  else
    let ticks : ℚ := (sdl_ticks : ℚ) / MILLISECONDS_IN_SECOND
    let delta_time := ticks - g.g_previous_ticks
    let g := { g with g_previous_ticks := ticks }
    let g := { g with g_game_state :=
      { g.g_game_state with spaceship := g.g_game_state.spaceship.update delta_time } }
    let g := { g with g_game_state :=
      { g.g_game_state with
        asteroids := g.g_game_state.asteroids.map (fun asteroid => asteroid.update delta_time) } }
    let accel := g.g_game_state.spaceship.get_acceleration
    let g :=
      if (|accel.x| > 1 / 100 ∨ |accel.y| > 1 / 100) ∧ g.g_game_state.spaceship.get_fuel > 0 then
        { g with g_game_state :=
          { g.g_game_state with
            spaceship := g.g_game_state.spaceship.consume_fuel (5 * delta_time) } }
      else g
    if g.g_game_state.spaceship.get_position.x ≥ 5 then
      { g with g_game_state := { g.g_game_state with game_won := true } }
    else if collision_loop g.g_game_state.spaceship g.g_game_state.asteroids then
      { g with g_game_state := { g.g_game_state with game_over := true } }
    else g

/-- The elapsed time `update` computes from the clock reading. -/
def delta_time_of (g : Globals) (sdl_ticks : ℕ) : ℚ :=
  (sdl_ticks : ℚ) / MILLISECONDS_IN_SECOND - g.g_previous_ticks

/-! ## The entities that `initialise` creates -/

/-- The spaceship of `initialise`: speed 3, scale (0.5, 0.5, 1), position (0, 2, 0);
`acceleration0` and `velocity0` stand for the members its constructor leaves unset. -/
def initial_spaceship (texture : ℕ) (acceleration0 velocity0 : Vec3) : Entity :=
  let e := Entity.construct [texture] 3 [[0]] 0 1 0 1 1 .MOVE_STRAIGHT acceleration0 velocity0
  let e := e.set_scale ⟨1 / 2, 1 / 2, 1⟩
  e.set_position ⟨0, 2, 0⟩

/-- An asteroid as `initialise` creates them: the given speed (0 for the five
random ones, 2 for the last), scale (1, 1, 1) and the given position. -/
def initial_asteroid (texture : ℕ) (speed : ℚ) (position : Vec3)
    (acceleration0 velocity0 : Vec3) : Entity :=
  let e := Entity.construct [texture] speed [[0]] 0 1 0 1 1 .MOVE_STRAIGHT acceleration0 velocity0
  let e := e.set_position position
  e.set_scale ⟨1, 1, 1⟩

/-- A resting asteroid of scale (1, 1, 1) at `position`. -/
def example_obstacle (position : Vec3) : Entity :=
  initial_asteroid 1 0 position (Vec3.splat 0) (Vec3.splat 0)

/-- The state after a sequence of `consume_fuel` calls, one per amount, in order. -/
def consume_fuel_calls (e : Entity) (amounts : List ℚ) : Entity :=
  amounts.foldl Entity.consume_fuel e

/-- A session as the main loop holds it: the application is running and the last
clock reading was `previous_ticks` seconds. -/
def session (spaceship : Entity) (asteroids : List Entity) (game_over game_won : Bool)
    (previous_ticks : ℚ) : Globals :=
  { g_game_state :=
      { spaceship := spaceship, asteroids := asteroids,
        game_over := game_over, game_won := game_won }
    g_app_status := .RUNNING
    g_previous_ticks := previous_ticks }

/-- A keyboard on which only the thrust key W is held. -/
def thrust_only : ℕ → Bool := fun scancode => decide (scancode = SDL_SCANCODE_W)

/-- A won session: the craft rests at the goal line x = 5 with the acceleration
`process_input` commands when no key is held, next to the moving asteroid of
`initialise` (speed 2, at (3, 0, 0)); `game_won` is set and `game_over` is not. -/
def won_session : Globals :=
  session
    ((initial_spaceship 0 ⟨0, -1 / 2, 0⟩ (Vec3.splat 0)).set_position ⟨5, 2, 0⟩)
    [initial_asteroid 1 2 ⟨3, 0, 0⟩ (Vec3.splat 0) (Vec3.splat 0)]
    false true 0

/-- A running session without asteroids whose craft rests at (x, 2, 0) with zero
movement and zero acceleration, so that a physics step leaves it at abscissa x. -/
def resting_session (x : ℚ) : Globals :=
  session ((initial_spaceship 0 (Vec3.splat 0) (Vec3.splat 0)).set_position ⟨x, 2, 0⟩)
    [] false false 0

/-- A running session as `initialise` leaves the craft (at (0, 2, 0), fuel 100),
with zero acceleration and no asteroid. -/
def fresh_session : Globals :=
  session (initial_spaceship 0 (Vec3.splat 0) (Vec3.splat 0)) [] false false 0

/-- A running session with the craft of `initialise` above one resting asteroid at
the origin: after one second of free fall the craft is at (0, 1/2, 0) and the two
boxes overlap. -/
def collision_session : Globals :=
  session (initial_spaceship 0 (Vec3.splat 0) (Vec3.splat 0))
    [example_obstacle ⟨0, 0, 0⟩] false false 0

/-- A running session whose craft rests at (5, 2, 0) above a resting asteroid at
(5, 0, 0): after one second of free fall the craft is at (5, 1/2, 0), on the goal
line and inside the box of the asteroid. -/
def win_and_collision_session : Globals :=
  session ((initial_spaceship 0 (Vec3.splat 0) (Vec3.splat 0)).set_position ⟨5, 2, 0⟩)
    [example_obstacle ⟨5, 0, 0⟩] false false 0

/-! ## Binary32 arithmetic

The entity functions once more, this time with every `float` operation rounded as
IEEE 754 binary32 does (round to nearest, ties to even, overflow to infinity, NaN),
one rounding per operation. -/

/-- The values of a C++ `float` (IEEE 754 binary32): NaN, the two infinities, and the
finite values by their exact rational value. The two zeros are one value, as the
comparison `==` has them. -/
inductive F32 where
  | nan
  | inf (negative : Bool)
  | fin (value : ℚ)
deriving DecidableEq

namespace F32

/-- The exponent of the unit in the last place of a binary32 value of magnitude
`a`: 23 below the binary exponent of `a`, which is held at -126 in the subnormal
range. -/
def ulp_exponent (a : ℚ) : ℤ := max (Int.log 2 a) (-126) - 23

/-- The integer nearest to `x`, the even one when `x` is halfway between two. -/
def round_half_even (x : ℚ) : ℤ :=
  if x - ⌊x⌋ < 1 / 2 then ⌊x⌋
  else if x - ⌊x⌋ > 1 / 2 then ⌊x⌋ + 1
  else if ⌊x⌋ % 2 = 0 then ⌊x⌋
  else ⌊x⌋ + 1

/-- The binary32 rounding of an exact result: the nearest multiple of the unit in
the last place, ties to even, and an infinity when that reaches 2^128. It is also
the value of a decimal literal such as `0.98f`. -/
def round32 (q : ℚ) : F32 :=
  let u : ℚ := 2 ^ ulp_exponent |q|
  let r : ℚ := round_half_even (q / u) * u
  if |r| ≥ 2 ^ 128 then inf (decide (q < 0)) else fin r

/-- The rationals that are finite binary32 values: below 2^128 in magnitude and a
whole number of units in the last place. -/
def is_binary32 (q : ℚ) : Prop :=
  |q| < 2 ^ 128 ∧ (q / 2 ^ ulp_exponent |q|).den = 1

instance (q : ℚ) : Decidable (is_binary32 q) := by
  unfold is_binary32; infer_instance

/-- The unary minus of `float`. -/
def neg : F32 → F32
  | nan => nan
  | inf negative => inf (!negative)
  | fin a => fin (-a)

/-- The sum of two `float` values. -/
def add : F32 → F32 → F32
  | nan, _ => nan
  | _, nan => nan
  | inf s, inf t => if s = t then inf s else nan
  | inf s, fin _ => inf s
  | fin _, inf t => inf t
  | fin a, fin b => round32 (a + b)

/-- The difference of two `float` values. -/
def sub (a b : F32) : F32 := add a (neg b)

/-- The product of two `float` values; zero times an infinity is NaN. -/
def mul : F32 → F32 → F32
  | nan, _ => nan
  | _, nan => nan
  | inf s, inf t => inf (xor s t)
  | inf s, fin b => if b = 0 then nan else inf (xor s (decide (b < 0)))
  | fin a, inf t => if a = 0 then nan else inf (xor (decide (a < 0)) t)
  | fin a, fin b => round32 (a * b)

/-- The quotient `x / 2.0f`, the only division of the entity functions. -/
def half : F32 → F32
  | nan => nan
  | inf s => inf s
  | fin a => round32 (a / 2)

/-- The library function `fabs`. -/
def fabs : F32 → F32
  | nan => nan
  | inf _ => inf false
  | fin a => fin |a|

/-- The comparison `<` of `float`: false as soon as one side is NaN. -/
def lt : F32 → F32 → Bool
  | nan, _ => false
  | _, nan => false
  | inf s, inf t => s && !t
  | inf s, fin _ => s
  | fin _, inf t => !t
  | fin a, fin b => decide (a < b)

/-- The test that a `float` is neither NaN nor an infinity. -/
def is_finite : F32 → Bool
  | fin _ => true
  | _ => false

/-- The finite values that a `float` variable can really hold. -/
def is_finite_value : F32 → Prop
  | fin a => is_binary32 a
  | _ => False

instance : Add F32 := ⟨add⟩
instance : Sub F32 := ⟨sub⟩
instance : Mul F32 := ⟨mul⟩

end F32

/-- The type `glm::vec3` with `float` components. -/
structure Vec3f where
  x : F32
  y : F32
  z : F32
deriving DecidableEq

namespace Vec3f

/-- The constructor `glm::vec3(s)`: every component is `s`. -/
def splat (s : F32) : Vec3f := ⟨s, s, s⟩

/-- Componentwise sum, `operator+` of `glm::vec3`. -/
def add (a b : Vec3f) : Vec3f := ⟨a.x + b.x, a.y + b.y, a.z + b.z⟩

/-- Product with a scalar, `operator*` of `glm::vec3` and `float`. -/
def scaleBy (a : Vec3f) (s : F32) : Vec3f := ⟨a.x * s, a.y * s, a.z * s⟩

instance : Add Vec3f := ⟨add⟩
instance : HMul Vec3f F32 Vec3f := ⟨scaleBy⟩

/-- No component is NaN or an infinity. -/
def is_finite (v : Vec3f) : Prop :=
  v.x.is_finite = true ∧ v.y.is_finite = true ∧ v.z.is_finite = true

/-- Every component is a finite binary32 value. -/
def is_finite_value (v : Vec3f) : Prop :=
  v.x.is_finite_value ∧ v.y.is_finite_value ∧ v.z.is_finite_value

end Vec3f

/-- The type `glm::vec4` with `float` components. -/
structure Vec4f where
  x : F32
  y : F32
  z : F32
  w : F32
deriving DecidableEq

namespace Vec4f

/-- Componentwise sum of `glm::vec4`. -/
def add (a b : Vec4f) : Vec4f := ⟨a.x + b.x, a.y + b.y, a.z + b.z, a.w + b.w⟩

/-- Product of a `glm::vec4` with a scalar. -/
def scaleBy (a : Vec4f) (s : F32) : Vec4f := ⟨a.x * s, a.y * s, a.z * s, a.w * s⟩

instance : Add Vec4f := ⟨add⟩
instance : HMul Vec4f F32 Vec4f := ⟨scaleBy⟩

end Vec4f

/-- The type `glm::mat4` with `float` entries, stored by columns. -/
structure Mat4f where
  c0 : Vec4f
  c1 : Vec4f
  c2 : Vec4f
  c3 : Vec4f
deriving DecidableEq

/-- The constructor `glm::mat4(1.0f)`: the identity matrix. -/
def Mat4f.identity : Mat4f :=
  ⟨⟨.fin 1, .fin 0, .fin 0, .fin 0⟩, ⟨.fin 0, .fin 1, .fin 0, .fin 0⟩,
    ⟨.fin 0, .fin 0, .fin 1, .fin 0⟩, ⟨.fin 0, .fin 0, .fin 0, .fin 1⟩⟩

/-- The library function `glm::translate(m, v)` in `float` arithmetic: the last
column becomes `m[0]*v.x + m[1]*v.y + m[2]*v.z + m[3]`. -/
def glm_translate32 (m : Mat4f) (v : Vec3f) : Mat4f :=
  { m with c3 := m.c0 * v.x + m.c1 * v.y + m.c2 * v.z + m.c3 }

/-- The library function `glm::scale(m, v)` in `float` arithmetic. -/
def glm_scale32 (m : Mat4f) (v : Vec3f) : Mat4f :=
  { m with c0 := m.c0 * v.x, c1 := m.c1 * v.y, c2 := m.c2 * v.z }

/-- The data members of class `Entity`, the `float` ones as binary32 values. -/
structure Entity32 where
  m_texture_ids : List ℕ
  m_animations : List (List ℤ)
  m_movement : Vec3f
  m_position : Vec3f
  m_scale : Vec3f
  m_model_matrix : Mat4f
  m_speed : F32
  m_animation_cols : ℤ
  m_animation_frames : ℤ
  m_animation_index : ℤ
  m_animation_rows : ℤ
  m_current_animation : Animation
  m_animation_indices : Option (List ℤ)
  m_animation_time : F32
  m_acceleration : Vec3f
  m_velocity : Vec3f
  m_fuel : F32
deriving DecidableEq

namespace Entity32

/-- The member `m_gravity = -0.5f`, a constant of every entity. -/
def m_gravity : F32 := .fin (-1 / 2)

/-- The member `m_drag = 0.50f`, a constant that no function reads. -/
def m_drag : F32 := .fin (1 / 2)

/-- The member function `set_animation_state`. -/
def set_animation_state (e : Entity32) (new_animation : Animation) : Entity32 :=
  let e := { e with m_current_animation := new_animation }
  let e := { e with m_animation_indices := e.m_animations.get? e.m_current_animation.toNat }
  match new_animation with
  | .MOVE_STRAIGHT =>
    { e with m_animation_frames := 1, m_animation_rows := 1,
             m_scale := ⟨.fin 2, .fin 2, .fin 0⟩ }
  | _ =>
    { e with m_animation_frames := 1, m_animation_rows := 1,
             m_scale := ⟨.fin 2, .fin 2, .fin 0⟩ }

/-- The nine-argument constructor of `Entity`; `acceleration0` and `velocity0` are
the values of the members its initialiser list leaves unset. -/
def construct (texture_ids : List ℕ) (speed : F32) (animations : List (List ℤ))
    (animation_time : F32) (animation_frames animation_index animation_cols
    animation_rows : ℤ) (animation : Animation) (acceleration0 velocity0 : Vec3f) : Entity32 :=
  set_animation_state
    { m_texture_ids := texture_ids
      m_animations := animations
      m_movement := Vec3f.splat (.fin 0)
      m_position := Vec3f.splat (.fin 0)
      m_scale := ⟨.fin 1, .fin 1, .fin 0⟩
      m_model_matrix := Mat4f.identity
      m_speed := speed
      m_animation_cols := animation_cols
      m_animation_frames := animation_frames
      m_animation_index := animation_index
      m_animation_rows := animation_rows
      m_current_animation := animation
      m_animation_indices := none
      m_animation_time := animation_time
      m_acceleration := acceleration0
      m_velocity := velocity0
      m_fuel := .fin 100 }
    animation

/-- The mutator `set_position`. -/
def set_position (e : Entity32) (new_position : Vec3f) : Entity32 :=
  { e with m_position := new_position }

/-- The mutator `set_movement`. -/
def set_movement (e : Entity32) (new_movement : Vec3f) : Entity32 :=
  { e with m_movement := new_movement }

/-- The mutator `set_scale`. -/
def set_scale (e : Entity32) (new_scale : Vec3f) : Entity32 :=
  { e with m_scale := new_scale }

/-- The member function `check_collision` in `float` arithmetic: `self` is `this`,
and `byy` is the local `by` of the source. -/
def check_collision (self other : Entity32) : Bool :=
  let posA := self.m_position
  let posB := other.m_position
  let ax := self.m_scale.x.half
  let ay := self.m_scale.y.half
  let bx := other.m_scale.x.half
  let byy := other.m_scale.y.half
  F32.lt (F32.fabs (posA.x - posB.x)) (ax + bx) && F32.lt (F32.fabs (posA.y - posB.y)) (ay + byy)

/-- The member function `update` in `float` arithmetic: gravity, movement, position,
damping by the literal `0.98f`, then the model matrix. -/
def update (e : Entity32) (delta_time : F32) : Entity32 :=
  -- Apply gravity
  let e := { e with m_acceleration :=
    { e.m_acceleration with y := e.m_acceleration.y + m_gravity * delta_time } }
  -- Update velocity using acceleration
  let e := { e with m_movement := e.m_movement + e.m_acceleration * delta_time }
  -- Update position
  let e := { e with m_position := e.m_position + e.m_movement * e.m_speed * delta_time }
  -- Slowly reduce acceleration
  let e := { e with m_acceleration := e.m_acceleration * F32.round32 (49 / 50) }
  -- Update model matrix
  let e := { e with m_model_matrix := Mat4f.identity }
  let e := { e with m_model_matrix := glm_translate32 e.m_model_matrix e.m_position }
  { e with m_model_matrix := glm_scale32 e.m_model_matrix e.m_scale }

/-- The state after a sequence of `Entity::update` calls, one per elapsed time, in
order, with nothing else touching the entity in between. -/
def update_calls (e : Entity32) (delta_times : List F32) : Entity32 :=
  delta_times.foldl update e

end Entity32

/-- The spaceship of `initialise` (speed 3, scale (0.5, 0.5, 1), zero acceleration)
placed at `position`. -/
def craft32 (position : Vec3f) : Entity32 :=
  let e := Entity32.construct [0] (.fin 3) [[0]] (.fin 0) 1 0 1 1 .MOVE_STRAIGHT
    (Vec3f.splat (.fin 0)) (Vec3f.splat (.fin 0))
  let e := e.set_scale ⟨.fin (1 / 2), .fin (1 / 2), .fin 1⟩
  e.set_position position

/-- An asteroid of `initialise` (speed 0, scale (1, 1, 1)) at `position`, with the
given movement and the given value of its unset acceleration. -/
def asteroid32 (position movement acceleration0 : Vec3f) : Entity32 :=
  let e := Entity32.construct [1] (.fin 0) [[0]] (.fin 0) 1 0 1 1 .MOVE_STRAIGHT
    acceleration0 (Vec3f.splat (.fin 0))
  let e := e.set_position position
  let e := e.set_scale ⟨.fin 1, .fin 1, .fin 1⟩
  e.set_movement movement

/-- An asteroid at `position` with zero movement and zero acceleration. -/
def obstacle32_at (position : Vec3f) : Entity32 :=
  asteroid32 position (Vec3f.splat (.fin 0)) (Vec3f.splat (.fin 0))

/-- A resting asteroid at (3, 1, 0). -/
def resting_asteroid32 : Entity32 :=
  obstacle32_at ⟨.fin 3, .fin 1, .fin 0⟩

/-- An asteroid at (3, 1, 0) with movement.y = -2^127 and acceleration.y = -2^126,
both finite `float` values. -/
def overflowing_asteroid32 : Entity32 :=
  asteroid32 ⟨.fin 3, .fin 1, .fin 0⟩ ⟨.fin 0, .fin (-(2 ^ 127)), .fin 0⟩
    ⟨.fin 0, .fin (-(2 ^ 126)), .fin 0⟩

theorem Vec3.add_def (a b : Vec3) : a + b = ⟨a.x + b.x, a.y + b.y, a.z + b.z⟩ := rfl

theorem Vec3.mul_def (a : Vec3) (s : ℚ) : a * s = ⟨a.x * s, a.y * s, a.z * s⟩ := rfl

theorem Entity.consume_fuel_fuel (e : Entity) (amount : ℚ) :
    (e.consume_fuel amount).m_fuel = max (e.m_fuel - amount) 0 := by
  unfold Entity.consume_fuel
  by_cases h : e.m_fuel - amount < 0
  · simp [h, max_eq_right (le_of_lt h)]
  · simp [h, max_eq_left (not_lt.mp h)]

theorem Entity.consume_fuel_nonneg (e : Entity) (amount : ℚ) :
    0 ≤ (e.consume_fuel amount).m_fuel := by
  rw [Entity.consume_fuel_fuel]
  exact le_max_right _ _

theorem consume_fuel_calls_nonneg (amounts : List ℚ) :
    ∀ e : Entity, 0 ≤ e.m_fuel → 0 ≤ (consume_fuel_calls e amounts).m_fuel := by
  induction amounts with
  | nil => intro e h; simpa [consume_fuel_calls] using h
  | cons amount rest ih =>
    intro e _
    have step := ih (e.consume_fuel amount) (Entity.consume_fuel_nonneg e amount)
    simpa [consume_fuel_calls] using step

/-! ## The kinematic entity model -/

/-- C1: for every entity state and every delta_time >= 0, `Entity::update` first adds
gravity * delta_time (gravity = -1/2) to acceleration.y, then adds
acceleration * delta_time to movement, then adds movement * speed * delta_time to
position, then multiplies acceleration by 0.98, and changes nothing else of the
physical state; from position (0,2,0), movement 0, acceleration 0, speed 3 and
delta_time 1 one update gives movement.y = -1/2, position.y = 1/2 and
acceleration.y = -49/100. -/
theorem Entity.update_steps (e : Entity) (delta_time : ℚ) (_h : 0 ≤ delta_time) :
    (let a1 : Vec3 :=
        ⟨e.m_acceleration.x, e.m_acceleration.y + (-1 / 2) * delta_time, e.m_acceleration.z⟩
     let m1 : Vec3 :=
        ⟨e.m_movement.x + a1.x * delta_time, e.m_movement.y + a1.y * delta_time,
          e.m_movement.z + a1.z * delta_time⟩
     let p1 : Vec3 :=
        ⟨e.m_position.x + m1.x * e.m_speed * delta_time,
          e.m_position.y + m1.y * e.m_speed * delta_time,
          e.m_position.z + m1.z * e.m_speed * delta_time⟩
     let a2 : Vec3 := ⟨a1.x * (49 / 50), a1.y * (49 / 50), a1.z * (49 / 50)⟩
     (e.update delta_time).m_movement = m1 ∧
     (e.update delta_time).m_position = p1 ∧
     (e.update delta_time).m_acceleration = a2 ∧
     (e.update delta_time).m_speed = e.m_speed ∧
     (e.update delta_time).m_scale = e.m_scale ∧
     (e.update delta_time).m_velocity = e.m_velocity ∧
     (e.update delta_time).m_fuel = e.m_fuel) ∧
    (∀ (texture : ℕ) (velocity0 : Vec3),
      ((initial_spaceship texture (Vec3.splat 0) velocity0).update 1).m_movement.y = -1 / 2 ∧
      ((initial_spaceship texture (Vec3.splat 0) velocity0).update 1).m_position.y = 1 / 2 ∧
      ((initial_spaceship texture (Vec3.splat 0) velocity0).update 1).m_acceleration.y
        = -49 / 100) := by
  refine ⟨?_, ?_⟩
  · refine ⟨?_, ?_, ?_, rfl, rfl, rfl, rfl⟩ <;>
      simp [Entity.update, Entity.m_gravity, Vec3.add_def, Vec3.mul_def]
  · intro texture velocity0
    simp only [Entity.update, Entity.m_gravity, Vec3.add_def, Vec3.mul_def, initial_spaceship,
      Entity.construct, Entity.set_animation_state, Entity.set_scale, Entity.set_position,
      Vec3.splat]
    norm_num

/-- The update steps at the spaceship of `initialise` with zero acceleration and
delta_time 1: the craft falls from (0, 2, 0) to (0, 1/2, 0). -/
theorem Entity.update_steps_witness :
    (0 : ℚ) ≤ 1 ∧
    ((initial_spaceship 0 (Vec3.splat 0) (Vec3.splat 0)).update 1).m_position
      = ⟨0, 1 / 2, 0⟩ := by
  refine ⟨by norm_num, ?_⟩
  have h := (Entity.update_steps (initial_spaceship 0 (Vec3.splat 0) (Vec3.splat 0)) 1
    (by norm_num)).1.2.1
  rw [h]
  simp only [initial_spaceship, Entity.construct, Entity.set_animation_state, Entity.set_scale,
    Entity.set_position, Vec3.splat]
  norm_num

/-- C3: `check_collision` is symmetric: `A.check_collision(B)` equals
`B.check_collision(A)` for every pair of entities. -/
theorem Entity.check_collision_symm (a b : Entity) :
    a.check_collision b = b.check_collision a := by
  simp only [Entity.check_collision]
  rw [abs_sub_comm a.m_position.x, abs_sub_comm a.m_position.y,
    add_comm (a.m_scale.x / 2), add_comm (a.m_scale.y / 2)]

/-- C4: fuel floor. For an entity whose fuel is >= 0 and any finite sequence of
`consume_fuel` calls with arbitrary amounts, the fuel is >= 0 after every call of
the sequence (after the first k calls, for every k). -/
theorem fuel_floor (e : Entity) (amounts : List ℚ) (h : 0 ≤ e.m_fuel) :
    ∀ k : ℕ, 0 ≤ (consume_fuel_calls e (amounts.take k)).m_fuel :=
  fun k => consume_fuel_calls_nonneg (amounts.take k) e h

/-- The fuel floor at the spaceship of `initialise` (fuel 100) after the first two
of the calls `consume_fuel(30)`, `consume_fuel(200)`, `consume_fuel(-5)`: the fuel
is 0 there. -/
theorem fuel_floor_witness :
    0 ≤ (initial_spaceship 0 (Vec3.splat 0) (Vec3.splat 0)).m_fuel ∧
    0 ≤ (consume_fuel_calls (initial_spaceship 0 (Vec3.splat 0) (Vec3.splat 0))
      (([30, 200, -5] : List ℚ).take 2)).m_fuel :=
  ⟨by norm_num [initial_spaceship, Entity.construct, Entity.set_animation_state,
      Entity.set_scale, Entity.set_position],
   fuel_floor _ [30, 200, -5]
    (by norm_num [initial_spaceship, Entity.construct, Entity.set_animation_state,
      Entity.set_scale, Entity.set_position]) 2⟩

/-! ## The game loop -/

theorem collision_loop_eq_true_iff (spaceship : Entity) (asteroids : List Entity) :
    collision_loop spaceship asteroids = true ↔
      ∃ asteroid ∈ asteroids, spaceship.check_collision asteroid = true := by
  induction asteroids with
  | nil => simp [collision_loop]
  | cons asteroid rest ih =>
    by_cases h : spaceship.check_collision asteroid = true
    · simp [collision_loop, h]
    · simp [collision_loop, h, ih]

theorem Entity.consume_fuel_position (e : Entity) (amount : ℚ) :
    (e.consume_fuel amount).m_position = e.m_position := by
  unfold Entity.consume_fuel
  dsimp only
  split_ifs <;> rfl

theorem Entity.consume_fuel_scale (e : Entity) (amount : ℚ) :
    (e.consume_fuel amount).m_scale = e.m_scale := by
  unfold Entity.consume_fuel
  dsimp only
  split_ifs <;> rfl

theorem Entity.check_collision_consume_fuel (e other : Entity) (amount : ℚ) :
    (e.consume_fuel amount).check_collision other = e.check_collision other := by
  simp only [Entity.check_collision, Entity.consume_fuel_position, Entity.consume_fuel_scale]

/-- The guard at the top of `update`: with `game_over` set nothing changes. -/
theorem update_of_game_over (g : Globals) (sdl_ticks : ℕ)
    (h : g.g_game_state.game_over = true) : update g sdl_ticks = g := by
  simp [update, h]

theorem collision_loop_consume_fuel (e : Entity) (amount : ℚ) (asteroids : List Entity) :
    collision_loop (e.consume_fuel amount) asteroids = collision_loop e asteroids := by
  induction asteroids with
  | nil => rfl
  | cons asteroid rest ih =>
    simp only [collision_loop, Entity.check_collision_consume_fuel, ih]

/-- The spaceship `update` leaves in a session that is not over: the physics
step, then the fuel deduction when the acceleration test passes. -/
theorem update_running (g : Globals) (sdl_ticks : ℕ)
    (h : g.g_game_state.game_over = false) :
    update g sdl_ticks =
      (let dt := delta_time_of g sdl_ticks
       let ship1 := g.g_game_state.spaceship.update dt
       let rocks := g.g_game_state.asteroids.map (fun asteroid => asteroid.update dt)
       let ship2 :=
         if (|ship1.m_acceleration.x| > 1 / 100 ∨ |ship1.m_acceleration.y| > 1 / 100) ∧
             ship1.m_fuel > 0 then ship1.consume_fuel (5 * dt) else ship1
       { g_game_state :=
           { spaceship := ship2
             asteroids := rocks
             game_over := decide (ship1.m_position.x < 5) && collision_loop ship1 rocks
             game_won := decide (ship1.m_position.x ≥ 5) || g.g_game_state.game_won }
         g_app_status := g.g_app_status
         g_previous_ticks := (sdl_ticks : ℚ) / MILLISECONDS_IN_SECOND }) := by
  unfold update
  rw [if_neg (by simp [h])]
  dsimp only [delta_time_of, Entity.get_position, Entity.get_fuel, Entity.get_acceleration]
  by_cases hc : (|(g.g_game_state.spaceship.update
      ((sdl_ticks : ℚ) / MILLISECONDS_IN_SECOND - g.g_previous_ticks)).m_acceleration.x| > 1 / 100 ∨
      |(g.g_game_state.spaceship.update
      ((sdl_ticks : ℚ) / MILLISECONDS_IN_SECOND - g.g_previous_ticks)).m_acceleration.y| > 1 / 100) ∧
      (g.g_game_state.spaceship.update
      ((sdl_ticks : ℚ) / MILLISECONDS_IN_SECOND - g.g_previous_ticks)).m_fuel > 0
  · simp only [if_pos hc, Entity.consume_fuel_position, collision_loop_consume_fuel]
    by_cases hx : (g.g_game_state.spaceship.update
      ((sdl_ticks : ℚ) / MILLISECONDS_IN_SECOND - g.g_previous_ticks)).m_position.x ≥ 5
    · simp [hx, not_lt.mpr hx, h]
    · by_cases hl : collision_loop (g.g_game_state.spaceship.update
        ((sdl_ticks : ℚ) / MILLISECONDS_IN_SECOND - g.g_previous_ticks))
        (g.g_game_state.asteroids.map (fun asteroid => asteroid.update
          ((sdl_ticks : ℚ) / MILLISECONDS_IN_SECOND - g.g_previous_ticks))) = true
      · simp [hx, hl, not_le.mp hx]
      · simp [hx, hl, h]
  · simp only [if_neg hc]
    by_cases hx : (g.g_game_state.spaceship.update
      ((sdl_ticks : ℚ) / MILLISECONDS_IN_SECOND - g.g_previous_ticks)).m_position.x ≥ 5
    · simp [hx, not_lt.mpr hx, h]
    · by_cases hl : collision_loop (g.g_game_state.spaceship.update
        ((sdl_ticks : ℚ) / MILLISECONDS_IN_SECOND - g.g_previous_ticks))
        (g.g_game_state.asteroids.map (fun asteroid => asteroid.update
          ((sdl_ticks : ℚ) / MILLISECONDS_IN_SECOND - g.g_previous_ticks))) = true
      · simp [hx, hl, not_le.mp hx]
      · simp [hx, hl, h]

theorem process_input_game_won (g : Globals) (events : List SDL_Event)
    (key_state : ℕ → Bool) :
    (process_input g events key_state).g_game_state.game_won = g.g_game_state.game_won :=
  rfl

/-- Every elapsed time occurs: whatever the clock reads, some previous reading makes
`update` compute the given `delta_time`. -/
theorem delta_time_of_surjective (g : Globals) (sdl_ticks : ℕ) (delta_time : ℚ) :
    ∃ previous_ticks : ℚ,
      delta_time_of { g with g_previous_ticks := previous_ticks } sdl_ticks = delta_time :=
  ⟨(sdl_ticks : ℚ) / MILLISECONDS_IN_SECOND - delta_time, by simp [delta_time_of]⟩

/-- The outcome of the collision loop is the same for every ordering of the asteroids. -/
theorem collision_loop_perm (spaceship : Entity) {l₁ l₂ : List Entity} (h : l₁.Perm l₂) :
    collision_loop spaceship l₁ = collision_loop spaceship l₂ := by
  rw [Bool.eq_iff_iff, collision_loop_eq_true_iff, collision_loop_eq_true_iff]
  constructor
  · rintro ⟨asteroid, hmem, hc⟩
    exact ⟨asteroid, h.mem_iff.mp hmem, hc⟩
  · rintro ⟨asteroid, hmem, hc⟩
    exact ⟨asteroid, h.mem_iff.mpr hmem, hc⟩

/-- The flag `game_over` that `update` leaves in a session that is not over. -/
theorem update_running_game_over (g : Globals) (sdl_ticks : ℕ)
    (h : g.g_game_state.game_over = false) :
    (update g sdl_ticks).g_game_state.game_over =
      (decide ((g.g_game_state.spaceship.update (delta_time_of g sdl_ticks)).m_position.x < 5) &&
        collision_loop (g.g_game_state.spaceship.update (delta_time_of g sdl_ticks))
          (g.g_game_state.asteroids.map
            (fun asteroid => asteroid.update (delta_time_of g sdl_ticks)))) := by
  rw [update_running g sdl_ticks h]

/-- C5, evaluated at a won session: the guard of `update` tests `game_over` only,
so with `game_won` set and one second elapsed `update` still moves the craft from
(5, 2, 0) to (5, -1, 0), burns fuel from 100 to 95 and moves the asteroid from
(3, 0, 0) to (3, -1, 0); the terminal freeze does not hold there. -/
theorem update_after_win_not_frozen :
    won_session.g_game_state.game_won = true ∧
    won_session.g_game_state.game_over = false ∧
    won_session.g_game_state.spaceship.m_position = ⟨5, 2, 0⟩ ∧
    won_session.g_game_state.spaceship.m_fuel = 100 ∧
    won_session.g_game_state.asteroids.map Entity.get_position = [⟨3, 0, 0⟩] ∧
    (update won_session 1000).g_game_state.spaceship.m_position = ⟨5, -1, 0⟩ ∧
    (update won_session 1000).g_game_state.spaceship.m_fuel = 95 ∧
    (update won_session 1000).g_game_state.asteroids.map Entity.get_position
      = [⟨3, -1, 0⟩] := by
  refine ⟨rfl, rfl, rfl, rfl, rfl, ?_, ?_, ?_⟩
  · rw [update_running _ _ rfl]
    simp only [won_session, session, delta_time_of, MILLISECONDS_IN_SECOND, initial_spaceship,
      initial_asteroid, Entity.construct, Entity.set_animation_state, Entity.set_scale,
      Entity.set_position, Entity.update, Entity.m_gravity, Vec3.add_def, Vec3.mul_def,
      Vec3.splat]
    norm_num [Entity.consume_fuel, lt_abs]
  · rw [update_running _ _ rfl]
    simp only [won_session, session, delta_time_of, MILLISECONDS_IN_SECOND, initial_spaceship,
      initial_asteroid, Entity.construct, Entity.set_animation_state, Entity.set_scale,
      Entity.set_position, Entity.update, Entity.m_gravity, Vec3.add_def, Vec3.mul_def,
      Vec3.splat]
    norm_num [Entity.consume_fuel, lt_abs]
  · rw [update_running _ _ rfl]
    simp only [won_session, session, delta_time_of, MILLISECONDS_IN_SECOND, initial_spaceship,
      initial_asteroid, Entity.construct, Entity.set_animation_state, Entity.set_scale,
      Entity.set_position, Entity.update, Entity.m_gravity, Vec3.add_def, Vec3.mul_def,
      Vec3.splat]
    norm_num [Entity.get_position]

/-- C6: win threshold. In a running session (neither terminal flag set), whatever the
elapsed time, `game_won` is true after one `update` exactly when the x-position of
the craft after the physics step is >= 5; that x-position is the one the session
holds afterwards; a craft ending the step at x = 4.999 is not won and one ending
it at x = 5 is won. -/
theorem win_threshold (g : Globals) (sdl_ticks : ℕ)
    (h_over : g.g_game_state.game_over = false) (h_won : g.g_game_state.game_won = false) :
    ((update g sdl_ticks).g_game_state.game_won = true ↔
      (g.g_game_state.spaceship.update (delta_time_of g sdl_ticks)).m_position.x ≥ 5) ∧
    (update g sdl_ticks).g_game_state.spaceship.m_position =
      (g.g_game_state.spaceship.update (delta_time_of g sdl_ticks)).m_position ∧
    ((g.g_game_state.spaceship.update (delta_time_of g sdl_ticks)).m_position.x = 4999 / 1000 →
      (update g sdl_ticks).g_game_state.game_won = false) ∧
    ((g.g_game_state.spaceship.update (delta_time_of g sdl_ticks)).m_position.x = 5 →
      (update g sdl_ticks).g_game_state.game_won = true) := by
  rw [update_running g sdl_ticks h_over]
  refine ⟨?_, ?_, ?_, ?_⟩
  · simp [h_won]
  · dsimp only
    split_ifs
    · exact Entity.consume_fuel_position _ _
    · rfl
  · intro hx
    simp only [h_won, hx]
    norm_num
  · intro hx
    simp only [h_won, hx]
    norm_num

/-- The win threshold at two running sessions whose craft rests at x = 4.999 and at
x = 5 while one second elapses: the first is not won, the second is. -/
theorem win_threshold_witness :
    ((resting_session (4999 / 1000)).g_game_state.game_over = false ∧
      (resting_session (4999 / 1000)).g_game_state.game_won = false ∧
      (update (resting_session (4999 / 1000)) 1000).g_game_state.game_won = false) ∧
    ((resting_session 5).g_game_state.game_over = false ∧
      (resting_session 5).g_game_state.game_won = false ∧
      (update (resting_session 5) 1000).g_game_state.game_won = true) := by
  refine ⟨⟨rfl, rfl, ?_⟩, ⟨rfl, rfl, ?_⟩⟩
  · refine (win_threshold (resting_session (4999 / 1000)) 1000 rfl rfl).2.2.1 ?_
    simp only [resting_session, session, delta_time_of, MILLISECONDS_IN_SECOND,
      initial_spaceship, Entity.construct, Entity.set_animation_state, Entity.set_scale,
      Entity.set_position, Entity.update, Entity.m_gravity, Vec3.add_def, Vec3.mul_def,
      Vec3.splat]
    norm_num
  · refine (win_threshold (resting_session 5) 1000 rfl rfl).2.2.2 ?_
    simp only [resting_session, session, delta_time_of, MILLISECONDS_IN_SECOND,
      initial_spaceship, Entity.construct, Entity.set_animation_state, Entity.set_scale,
      Entity.set_position, Entity.update, Entity.m_gravity, Vec3.add_def, Vec3.mul_def,
      Vec3.splat]
    norm_num

/-- C7: fuel-exhausted override. When the fuel of the craft is 0, `process_input`
sets the acceleration of the craft to x = 0, y = -1/2 (and z = 0) for every state of
the left, right and thrust keys, every pending event and every previous
acceleration. -/
theorem process_input_without_fuel (g : Globals) (events : List SDL_Event)
    (key_state : ℕ → Bool) (h : g.g_game_state.spaceship.m_fuel = 0) :
    (process_input g events key_state).g_game_state.spaceship.m_acceleration
      = ⟨0, -1 / 2, 0⟩ := by
  simp [process_input, input_acceleration, Entity.get_fuel, Entity.get_acceleration,
    Entity.set_acceleration, h, Vec3.splat]

/-- The fuel-exhausted override at the craft of `initialise` with its tank emptied
by `consume_fuel(100)`, previous acceleration (7, 7, 7) and the thrust key held. -/
theorem process_input_without_fuel_witness :
    (session ((initial_spaceship 0 ⟨7, 7, 7⟩ (Vec3.splat 0)).consume_fuel 100)
        [] false false 0).g_game_state.spaceship.m_fuel = 0 ∧
    (process_input
        (session ((initial_spaceship 0 ⟨7, 7, 7⟩ (Vec3.splat 0)).consume_fuel 100)
          [] false false 0)
        [] thrust_only).g_game_state.spaceship.m_acceleration = ⟨0, -1 / 2, 0⟩ :=
  ⟨by norm_num [session, initial_spaceship, Entity.construct, Entity.set_animation_state,
      Entity.set_scale, Entity.set_position, Entity.consume_fuel],
   process_input_without_fuel _ [] thrust_only
    (by norm_num [session, initial_spaceship, Entity.construct, Entity.set_animation_state,
      Entity.set_scale, Entity.set_position, Entity.consume_fuel])⟩

/-- C8: input mapping. When the fuel of the craft is > 0, `process_input` replaces the
acceleration so that x = -3/2 if the left key (A) is held, also when the right key
is held too, else x = 3/2 if the right key (D) is held, else x = 0, and y = 3/2 if
the thrust key (W) is held, else y = -1/2; the result does not depend on the x and
y of the acceleration held before the call. -/
theorem process_input_mapping (g : Globals) (events : List SDL_Event)
    (key_state : ℕ → Bool) (h : g.g_game_state.spaceship.m_fuel > 0) :
    (process_input g events key_state).g_game_state.spaceship.m_acceleration.x =
      (if key_state SDL_SCANCODE_A = true then -3 / 2
       else if key_state SDL_SCANCODE_D = true then 3 / 2 else 0) ∧
    (process_input g events key_state).g_game_state.spaceship.m_acceleration.y =
      (if key_state SDL_SCANCODE_W = true then 3 / 2 else -1 / 2) ∧
    (∀ ax ay : ℚ,
      process_input
        { g with g_game_state :=
          { g.g_game_state with spaceship :=
            { g.g_game_state.spaceship with m_acceleration :=
              { g.g_game_state.spaceship.m_acceleration with x := ax, y := ay } } } }
        events key_state
      = process_input g events key_state) := by
  refine ⟨?_, ?_, ?_⟩
  · simp only [process_input, input_acceleration, Entity.get_fuel, Entity.get_acceleration,
      Entity.set_acceleration, if_pos h]
    split_ifs <;> rfl
  · simp only [process_input, input_acceleration, Entity.get_fuel, Entity.get_acceleration,
      Entity.set_acceleration, if_pos h]
    split_ifs <;> rfl
  · intro ax ay
    simp only [process_input, input_acceleration, Entity.get_fuel, Entity.get_acceleration,
      Entity.set_acceleration, if_pos h]
    split_ifs <;> rfl

/-- The input mapping at the fresh session (fuel 100) with only the thrust key held:
the commanded acceleration is (0, 3/2, 0). -/
theorem process_input_mapping_witness :
    fresh_session.g_game_state.spaceship.m_fuel > 0 ∧
    (process_input fresh_session [] thrust_only).g_game_state.spaceship.m_acceleration.x = 0 ∧
    (process_input fresh_session [] thrust_only).g_game_state.spaceship.m_acceleration.y
      = 3 / 2 := by
  have hf : fresh_session.g_game_state.spaceship.m_fuel > 0 := by
    norm_num [fresh_session, session, initial_spaceship, Entity.construct,
      Entity.set_animation_state, Entity.set_scale, Entity.set_position]
  have h := process_input_mapping fresh_session [] thrust_only hf
  refine ⟨hf, ?_, ?_⟩
  · rw [h.1]
    simp [thrust_only, SDL_SCANCODE_A, SDL_SCANCODE_D, SDL_SCANCODE_W]
  · rw [h.2.1]
    simp [thrust_only, SDL_SCANCODE_W]

/-- C10: loss transition. In a running session, for an elapsed time after which the
x-position of the craft (after the physics step) is < 5, one `update` sets
`game_over` exactly when the box of the craft overlaps (`check_collision`, both
entities taken after their physics step) the box of at least one asteroid of the
collection, and `game_over` comes out the same for every ordering of the
collection. -/
theorem loss_transition (g : Globals) (sdl_ticks : ℕ)
    (h_over : g.g_game_state.game_over = false) (_h_won : g.g_game_state.game_won = false)
    (h_x : (g.g_game_state.spaceship.update (delta_time_of g sdl_ticks)).m_position.x < 5) :
    ((update g sdl_ticks).g_game_state.game_over = true ↔
      ∃ asteroid ∈ g.g_game_state.asteroids,
        (g.g_game_state.spaceship.update (delta_time_of g sdl_ticks)).check_collision
          (asteroid.update (delta_time_of g sdl_ticks)) = true) ∧
    (∀ reordered : List Entity, reordered.Perm g.g_game_state.asteroids →
      (update { g with g_game_state := { g.g_game_state with asteroids := reordered } }
        sdl_ticks).g_game_state.game_over
      = (update g sdl_ticks).g_game_state.game_over) := by
  refine ⟨?_, ?_⟩
  · rw [update_running_game_over g sdl_ticks h_over, Bool.and_eq_true,
      collision_loop_eq_true_iff]
    simp [h_x]
  · intro reordered hperm
    rw [update_running_game_over g sdl_ticks h_over,
      update_running_game_over
        { g with g_game_state := { g.g_game_state with asteroids := reordered } }
        sdl_ticks h_over]
    simp only [delta_time_of]
    rw [collision_loop_perm _ (hperm.map _)]

/-- The loss transition at the collision session after one second: the craft has
fallen to (0, 1/2, 0), overlaps the asteroid at the origin, and `game_over` is set. -/
theorem loss_transition_witness :
    collision_session.g_game_state.game_over = false ∧
    collision_session.g_game_state.game_won = false ∧
    (collision_session.g_game_state.spaceship.update
      (delta_time_of collision_session 1000)).m_position.x < 5 ∧
    (update collision_session 1000).g_game_state.game_over = true := by
  have hx : (collision_session.g_game_state.spaceship.update
      (delta_time_of collision_session 1000)).m_position.x < 5 := by
    simp only [collision_session, session, delta_time_of, MILLISECONDS_IN_SECOND,
      initial_spaceship, Entity.construct, Entity.set_animation_state, Entity.set_scale,
      Entity.set_position, Entity.update, Entity.m_gravity, Vec3.add_def, Vec3.mul_def,
      Vec3.splat]
    norm_num
  refine ⟨rfl, rfl, hx, ?_⟩
  refine (loss_transition collision_session 1000 rfl rfl hx).1.mpr
    ⟨example_obstacle ⟨0, 0, 0⟩, by simp [collision_session, session], ?_⟩
  simp only [collision_session, session, delta_time_of, MILLISECONDS_IN_SECOND,
    example_obstacle, initial_asteroid, Entity.check_collision,
    initial_spaceship, Entity.construct, Entity.set_animation_state, Entity.set_scale,
    Entity.set_position, Entity.update, Entity.m_gravity, Vec3.add_def, Vec3.mul_def,
    Vec3.splat]
  norm_num [abs_lt]

/-- C11: win takes precedence over loss. In a running session, for an elapsed time
after which the x-position of the craft is >= 5 and the box of the craft also
overlaps the box of some asteroid (both after their physics step), one `update`
sets `game_won` and leaves `game_over` false. -/
theorem win_precedence (g : Globals) (sdl_ticks : ℕ)
    (h_over : g.g_game_state.game_over = false) (_h_won : g.g_game_state.game_won = false)
    (h_x : (g.g_game_state.spaceship.update (delta_time_of g sdl_ticks)).m_position.x ≥ 5)
    (_h_hit : ∃ asteroid ∈ g.g_game_state.asteroids,
      (g.g_game_state.spaceship.update (delta_time_of g sdl_ticks)).check_collision
        (asteroid.update (delta_time_of g sdl_ticks)) = true) :
    (update g sdl_ticks).g_game_state.game_won = true ∧
    (update g sdl_ticks).g_game_state.game_over = false := by
  rw [update_running g sdl_ticks h_over]
  constructor
  · simp [h_x]
  · simp [not_lt.mpr h_x]

/-- The precedence of the win at the session whose craft falls onto an asteroid
lying on the goal line: after one second the craft is at (5, 1/2, 0), overlaps the
asteroid at (5, 0, 0), and the session is won, not lost. -/
theorem win_precedence_witness :
    win_and_collision_session.g_game_state.game_over = false ∧
    win_and_collision_session.g_game_state.game_won = false ∧
    (win_and_collision_session.g_game_state.spaceship.update
      (delta_time_of win_and_collision_session 1000)).m_position.x ≥ 5 ∧
    (win_and_collision_session.g_game_state.spaceship.update
      (delta_time_of win_and_collision_session 1000)).check_collision
        ((example_obstacle ⟨5, 0, 0⟩).update (delta_time_of win_and_collision_session 1000))
      = true ∧
    (update win_and_collision_session 1000).g_game_state.game_won = true ∧
    (update win_and_collision_session 1000).g_game_state.game_over = false := by
  have hx : (win_and_collision_session.g_game_state.spaceship.update
      (delta_time_of win_and_collision_session 1000)).m_position.x ≥ 5 := by
    simp only [win_and_collision_session, session, delta_time_of, MILLISECONDS_IN_SECOND,
      initial_spaceship, Entity.construct, Entity.set_animation_state, Entity.set_scale,
      Entity.set_position, Entity.update, Entity.m_gravity, Vec3.add_def, Vec3.mul_def,
      Vec3.splat]
    norm_num
  have hhit : (win_and_collision_session.g_game_state.spaceship.update
      (delta_time_of win_and_collision_session 1000)).check_collision
        ((example_obstacle ⟨5, 0, 0⟩).update (delta_time_of win_and_collision_session 1000))
      = true := by
    simp only [win_and_collision_session, session, delta_time_of, MILLISECONDS_IN_SECOND,
      example_obstacle, initial_asteroid, Entity.check_collision,
      initial_spaceship, Entity.construct, Entity.set_animation_state, Entity.set_scale,
      Entity.set_position, Entity.update, Entity.m_gravity, Vec3.add_def, Vec3.mul_def,
      Vec3.splat]
    norm_num [abs_lt]
  exact ⟨rfl, rfl, hx, hhit,
    win_precedence win_and_collision_session 1000 rfl rfl hx
      ⟨example_obstacle ⟨5, 0, 0⟩, by simp [win_and_collision_session, session], hhit⟩⟩

/-! ## Binary32 arithmetic: rounding -/

namespace F32

theorem round_half_even_intCast (n : ℤ) : round_half_even (n : ℚ) = n := by
  simp [round_half_even]

theorem round_half_even_le {x : ℚ} {N : ℤ} (h : x ≤ N) : round_half_even x ≤ N := by
  have hfl : ⌊x⌋ ≤ N := Int.floor_le_iff.mpr (lt_of_le_of_lt h (by simp))
  have hstep : ¬ (x - ⌊x⌋ < 1 / 2) → ⌊x⌋ + 1 ≤ N := by
    intro hfrac
    have hlt : (⌊x⌋ : ℚ) < N := by linarith
    exact_mod_cast hlt
  unfold round_half_even
  split_ifs with h1 h2 h3
  · exact hfl
  · exact hstep h1
  · exact hfl
  · exact hstep h1

theorem le_round_half_even {x : ℚ} {N : ℤ} (h : (N : ℚ) ≤ x) : N ≤ round_half_even x := by
  have hfl : N ≤ ⌊x⌋ := Int.le_floor.mpr h
  unfold round_half_even
  split_ifs <;> omega

theorem round_half_even_eq {x : ℚ} {n : ℤ} (h : |x - n| < 1 / 2) : round_half_even x = n := by
  have h' := abs_lt.mp h
  by_cases hx : (n : ℚ) ≤ x
  · have hfl : ⌊x⌋ = n := Int.floor_eq_iff.mpr ⟨hx, by linarith⟩
    unfold round_half_even
    rw [hfl, if_pos (by linarith)]
  · have hfl : ⌊x⌋ = n - 1 := Int.floor_eq_iff.mpr ⟨by push_cast; linarith, by push_cast; linarith⟩
    unfold round_half_even
    rw [hfl, if_neg (by push_cast; linarith), if_pos (by push_cast; linarith)]
    ring

theorem ulp_exponent_mono {a b : ℚ} (ha : 0 < a) (hab : a ≤ b) :
    ulp_exponent a ≤ ulp_exponent b := by
  unfold ulp_exponent
  have := Int.log_mono_right (b := 2) ha hab
  omega

theorem ulp_exponent_eq {a : ℚ} {e : ℤ} (he : -126 ≤ e) (h1 : 2 ^ e ≤ a) (h2 : a < 2 ^ (e + 1)) :
    ulp_exponent a = e - 23 := by
  have ha : 0 < a := lt_of_lt_of_le (by positivity) h1
  have hlog : Int.log 2 a = e := by
    apply le_antisymm
    · have := (Int.lt_zpow_iff_log_lt (b := 2) (by norm_num) ha (x := e + 1)).mp (by simpa using h2)
      omega
    · exact (Int.zpow_le_iff_le_log (b := 2) (by norm_num) ha).mp (by simpa using h1)
  unfold ulp_exponent
  rw [hlog, max_eq_left he]

theorem round32_zero : round32 0 = fin 0 := by
  have h : round_half_even (0 : ℚ) = 0 := by simpa using round_half_even_intCast 0
  simp [round32, h]

theorem round32_of_is_binary32 {q : ℚ} (h : is_binary32 q) : round32 q = fin q := by
  obtain ⟨hlt, hden⟩ := h
  have hnum := Rat.coe_int_num_of_den_eq_one hden
  have hu : (0 : ℚ) < 2 ^ ulp_exponent |q| := by positivity
  have hr : ((round_half_even (q / 2 ^ ulp_exponent |q|) : ℤ) : ℚ) * 2 ^ ulp_exponent |q| = q := by
    rw [← hnum, round_half_even_intCast, hnum]
    field_simp
  simp only [round32]
  rw [hr, if_neg (not_le.mpr hlt)]

theorem round32_bounded {q M : ℚ} (hM : 0 < M) (hbin : is_binary32 M) (hq : |q| ≤ M) :
    ∃ r : ℚ, round32 q = fin r ∧ |r| ≤ M := by
  by_cases hq0 : q = 0
  · exact ⟨0, by rw [hq0, round32_zero], by simpa using hM.le⟩
  obtain ⟨hlt, hden⟩ := hbin
  rw [abs_of_pos hM] at hlt hden
  have hnum := Rat.coe_int_num_of_den_eq_one hden
  have ha : 0 < |q| := abs_pos.mpr hq0
  have hexp := ulp_exponent_mono ha hq
  have hu : (0 : ℚ) < 2 ^ ulp_exponent |q| := by positivity
  obtain ⟨j, hj⟩ := Int.eq_ofNat_of_zero_le (sub_nonneg.mpr hexp)
  have hsplit : (2 : ℚ) ^ ulp_exponent M = 2 ^ ulp_exponent |q| * 2 ^ j := by
    have : ulp_exponent M = ulp_exponent |q| + (j : ℤ) := by omega
    rw [this, zpow_add₀ (by norm_num), zpow_natCast]
  have hN : (((M / 2 ^ ulp_exponent M).num * 2 ^ j : ℤ) : ℚ) = M / 2 ^ ulp_exponent |q| := by
    push_cast
    rw [hnum, hsplit]
    field_simp
    ring
  have hq' := abs_le.mp hq
  have hup : q / 2 ^ ulp_exponent |q| ≤ (((M / 2 ^ ulp_exponent M).num * 2 ^ j : ℤ) : ℚ) := by
    rw [hN]
    exact div_le_div_of_nonneg_right hq'.2 hu.le
  have hlo : ((-((M / 2 ^ ulp_exponent M).num * 2 ^ j) : ℤ) : ℚ) ≤ q / 2 ^ ulp_exponent |q| := by
    rw [Int.cast_neg, hN, ← neg_div]
    exact div_le_div_of_nonneg_right hq'.1 hu.le
  have h1 := round_half_even_le hup
  have h2 := le_round_half_even hlo
  have h1' : ((round_half_even (q / 2 ^ ulp_exponent |q|) : ℤ) : ℚ) ≤ M / 2 ^ ulp_exponent |q| := by
    rw [← hN]; exact_mod_cast h1
  have h2' : -(M / 2 ^ ulp_exponent |q|) ≤
      ((round_half_even (q / 2 ^ ulp_exponent |q|) : ℤ) : ℚ) := by
    rw [← hN, ← Int.cast_neg]; exact_mod_cast h2
  have hr : abs (((round_half_even (q / 2 ^ ulp_exponent |q|) : ℤ) : ℚ) * 2 ^ ulp_exponent |q|)
      ≤ M := by
    rw [abs_le]
    constructor
    · have := mul_le_mul_of_nonneg_right h2' hu.le
      rwa [neg_mul, div_mul_cancel₀ _ hu.ne'] at this
    · have := mul_le_mul_of_nonneg_right h1' hu.le
      rwa [div_mul_cancel₀ _ hu.ne'] at this
  refine ⟨_, ?_, hr⟩
  simp only [round32]
  rw [if_neg (not_le.mpr (lt_of_le_of_lt hr hlt))]

theorem is_binary32_zero : is_binary32 0 := by
  simp [is_binary32]

theorem is_binary32_of {q : ℚ} (e n : ℤ) (he : -126 ≤ e) (he' : e ≤ 127)
    (h1 : 2 ^ e ≤ |q|) (h2 : |q| < 2 ^ (e + 1)) (hq : q = n * 2 ^ (e - 23)) :
    is_binary32 q := by
  refine ⟨lt_of_lt_of_le h2 ?_, ?_⟩
  · have h128 : (2 : ℚ) ^ (e + 1) ≤ 2 ^ ((128 : ℕ) : ℤ) :=
      zpow_le_zpow_right₀ (by norm_num) (by push_cast; omega)
    rwa [zpow_natCast] at h128
  · rw [ulp_exponent_eq he h1 h2]
    have hu : (0 : ℚ) < 2 ^ (e - 23) := by positivity
    have : q / 2 ^ (e - 23) = (n : ℚ) := by rw [hq]; field_simp
    rw [this]
    exact Rat.den_intCast n

theorem round32_eq {q : ℚ} (e n : ℤ) (he : -126 ≤ e)
    (h1 : 2 ^ e ≤ |q|) (h2 : |q| < 2 ^ (e + 1)) (hn : |q / 2 ^ (e - 23) - n| < 1 / 2) :
    round32 q =
      if |(n : ℚ) * 2 ^ (e - 23)| ≥ 2 ^ 128 then inf (decide (q < 0))
      else fin (n * 2 ^ (e - 23)) := by
  simp only [round32]
  rw [ulp_exponent_eq he h1 h2, round_half_even_eq hn]

theorem round32_eq_fin {q : ℚ} (e n : ℤ) (he : -126 ≤ e)
    (h1 : 2 ^ e ≤ |q|) (h2 : |q| < 2 ^ (e + 1)) (hn : |q / 2 ^ (e - 23) - n| < 1 / 2)
    (hov : |(n : ℚ) * 2 ^ (e - 23)| < 2 ^ 128) :
    round32 q = fin (n * 2 ^ (e - 23)) := by
  rw [round32_eq e n he h1 h2 hn, if_neg (not_le.mpr hov)]

theorem round32_eq_inf {q : ℚ} (e n : ℤ) (he : -126 ≤ e)
    (h1 : 2 ^ e ≤ |q|) (h2 : |q| < 2 ^ (e + 1)) (hn : |q / 2 ^ (e - 23) - n| < 1 / 2)
    (hov : |(n : ℚ) * 2 ^ (e - 23)| ≥ 2 ^ 128) :
    round32 q = inf (decide (q < 0)) := by
  rw [round32_eq e n he h1 h2 hn, if_pos hov]

theorem round32_literal_098 : round32 (49 / 50) = fin (2055209 / 2097152) := by
  rw [round32_eq_fin (-1) 16441672 (by norm_num) (by norm_num [abs_of_pos])
    (by norm_num [abs_of_pos]) (by norm_num [abs_lt]) (by norm_num [abs_of_pos])]
  norm_num

theorem add_fin (a b : ℚ) : (fin a : F32) + fin b = round32 (a + b) := rfl

theorem mul_fin (a b : ℚ) : (fin a : F32) * fin b = round32 (a * b) := rfl

theorem two_zpow_sub_six (z : ℤ) : (2 : ℚ) ^ z = 64 * 2 ^ (z - 6) := by
  rw [zpow_sub₀ (by norm_num : (2 : ℚ) ≠ 0)]
  norm_num
  ring

theorem is_binary32_two_zpow (z : ℤ) (h1 : -126 ≤ z) (h2 : z ≤ 127) :
    is_binary32 ((2 : ℚ) ^ z) := by
  have hpos : (0 : ℚ) < 2 ^ z := by positivity
  refine is_binary32_of z 8388608 h1 h2 (by rw [abs_of_pos hpos]) ?_ ?_
  · rw [abs_of_pos hpos]
    exact zpow_lt_zpow_right₀ (by norm_num) (by omega)
  · rw [zpow_sub₀ (by norm_num : (2 : ℚ) ≠ 0)]
    norm_num
    ring

theorem is_binary32_65_mul_two_zpow (z : ℤ) (h1 : -132 ≤ z) (h2 : z ≤ 121) :
    is_binary32 (65 * (2 : ℚ) ^ z) := by
  have hpos : (0 : ℚ) < 2 ^ z := by positivity
  have h6 : (2 : ℚ) ^ (z + 6) = 64 * 2 ^ z := by
    rw [zpow_add₀ (by norm_num : (2 : ℚ) ≠ 0)]
    norm_num; ring
  have h7 : (2 : ℚ) ^ (z + 6 + 1) = 128 * 2 ^ z := by
    rw [zpow_add₀ (by norm_num : (2 : ℚ) ≠ 0), h6]
    norm_num; ring
  have h17 : (2 : ℚ) ^ (z + 6 - 23) = 2 ^ z / 131072 := by
    rw [show z + 6 - 23 = z - 17 by ring, zpow_sub₀ (by norm_num : (2 : ℚ) ≠ 0)]
    norm_num
  refine is_binary32_of (z + 6) 8519680 (by omega) (by omega) ?_ ?_ ?_
  · rw [abs_of_pos (by positivity), h6]
    linarith
  · rw [abs_of_pos (by positivity), h7]
    linarith
  · rw [h17]
    push_cast
    ring

/-- One damping step keeps the vertical acceleration within a power of two that
dominates 32 * delta_time. -/
theorem gravity_step_bounded (z : ℤ) (hz1 : -120 ≤ z) (hz2 : z ≤ 126) (a d : ℚ)
    (ha : |a| ≤ 2 ^ z) (hd0 : 0 < d) (hd : 32 * d ≤ 2 ^ z) :
    ∃ a' : ℚ, ((fin a : F32) + fin (-1 / 2) * fin d) * round32 (49 / 50) = fin a' ∧
      |a'| ≤ 2 ^ z := by
  have hpos6 : (0 : ℚ) < 2 ^ (z - 6) := by positivity
  have h64 := two_zpow_sub_six z
  obtain ⟨g, hg, hgb⟩ := round32_bounded hpos6 (is_binary32_two_zpow (z - 6) (by omega) (by omega))
    (q := -1 / 2 * d) (by rw [abs_le]; constructor <;> linarith)
  obtain ⟨a1, ha1, ha1b⟩ := round32_bounded (M := 65 * 2 ^ (z - 6)) (by positivity)
    (is_binary32_65_mul_two_zpow (z - 6) (by omega) (by omega)) (q := a + g)
    (by
      have := abs_add a g
      linarith)
  obtain ⟨a2, ha2, ha2b⟩ := round32_bounded (M := 2 ^ z) (by positivity)
    (is_binary32_two_zpow z (by omega) (by omega)) (q := a1 * (2055209 / 2097152))
    (by
      rw [abs_mul, abs_of_pos (by norm_num : (0 : ℚ) < 2055209 / 2097152)]
      nlinarith [abs_nonneg a1])
  refine ⟨a2, ?_, ha2b⟩
  rw [mul_fin, hg, add_fin, ha1, round32_literal_098, mul_fin, ha2]

end F32

theorem Entity32.update_acceleration_y_eq (e : Entity32) (delta_time : F32) :
    (e.update delta_time).m_acceleration.y =
      (e.m_acceleration.y + Entity32.m_gravity * delta_time) * F32.round32 (49 / 50) :=
  rfl

theorem Entity32.update_calls_cons (e : Entity32) (delta_time : F32) (rest : List F32) :
    Entity32.update_calls e (delta_time :: rest)
      = Entity32.update_calls (e.update delta_time) rest :=
  rfl

/-- The vertical acceleration stays within a power of two that dominates its
initial magnitude and 32 * delta_time, through any number of updates. -/
theorem Entity32.update_calls_acceleration_y_bounded (z : ℤ) (hz1 : -120 ≤ z) (hz2 : z ≤ 126)
    (d : ℚ) (hd0 : 0 < d) (hd : 32 * d ≤ 2 ^ z) (n : ℕ) :
    ∀ (e : Entity32) (a : ℚ), e.m_acceleration.y = .fin a → |a| ≤ 2 ^ z →
      ∃ a' : ℚ, (Entity32.update_calls e (List.replicate n (.fin d))).m_acceleration.y
        = .fin a' ∧ |a'| ≤ 2 ^ z := by
  induction n with
  | zero =>
    intro e a he ha
    exact ⟨a, he, ha⟩
  | succ n ih =>
    intro e a he ha
    obtain ⟨a1, h1, h1b⟩ := F32.gravity_step_bounded z hz1 hz2 a d ha hd0 hd
    rw [List.replicate_succ, Entity32.update_calls_cons]
    refine ih (e.update (.fin d)) a1 ?_ h1b
    rw [Entity32.update_acceleration_y_eq, he]
    exact h1

/-- C12, as stated, fails: for the craft of `initialise` with zero acceleration and
delta_time 1, in binary32 arithmetic, no number of consecutive updates brings
|acceleration.y| above 32, so the vertical acceleration does not grow beyond every
bound. -/
theorem gravity_accumulation_unbounded_counterexample :
    ¬ ∀ B : ℚ, ∃ n : ℕ,
      F32.lt (.fin B)
        (F32.fabs (Entity32.update_calls (craft32 ⟨.fin 0, .fin 2, .fin 0⟩)
          (List.replicate n (.fin 1))).m_acceleration.y) = true := by
  intro hgrow
  obtain ⟨n, hn⟩ := hgrow 32
  obtain ⟨a, ha, hab⟩ := Entity32.update_calls_acceleration_y_bounded 5 (by norm_num)
    (by norm_num) 1 (by norm_num) (by norm_num) n (craft32 ⟨.fin 0, .fin 2, .fin 0⟩) 0 rfl
    (by norm_num)
  rw [ha] at hn
  simp only [F32.fabs, F32.lt, decide_eq_true_eq] at hn
  norm_num at hab
  linarith

/-- C12, amended: for an entity whose acceleration nothing else resets, repeated
`Entity::update` calls with a fixed delta_time > 0 keep the vertical acceleration
bounded: whenever the initial |acceleration.y| <= 2^k and 32 * delta_time <= 2^k for
an integer k between -120 and 126, |acceleration.y| is finite and <= 2^k after every
number n of consecutive updates (binary32 arithmetic). -/
theorem gravity_accumulation_bounded (e : Entity32) (a0 delta_time : ℚ) (k : ℤ)
    (h_acc : e.m_acceleration.y = .fin a0) (h_dt : delta_time > 0)
    (hk1 : -120 ≤ k) (hk2 : k ≤ 126)
    (h_a0 : |a0| ≤ 2 ^ k) (h_k : 32 * delta_time ≤ 2 ^ k) :
    ∀ n : ℕ, ∃ a : ℚ,
      (Entity32.update_calls e (List.replicate n (.fin delta_time))).m_acceleration.y = .fin a ∧
      |a| ≤ 2 ^ k :=
  fun n => Entity32.update_calls_acceleration_y_bounded k hk1 hk2 delta_time h_dt h_k n e a0
    h_acc h_a0

/-- The bounded accumulation at the craft of `initialise` with zero acceleration,
delta_time 1 and k = 5: after 1000 updates |acceleration.y| <= 32. -/
theorem gravity_accumulation_bounded_witness :
    (craft32 ⟨.fin 0, .fin 2, .fin 0⟩).m_acceleration.y = .fin 0 ∧ (1 : ℚ) > 0 ∧
    (-120 : ℤ) ≤ 5 ∧ (5 : ℤ) ≤ 126 ∧ |(0 : ℚ)| ≤ 2 ^ (5 : ℤ) ∧ 32 * (1 : ℚ) ≤ 2 ^ (5 : ℤ) ∧
    ∃ a : ℚ,
      (Entity32.update_calls (craft32 ⟨.fin 0, .fin 2, .fin 0⟩)
        (List.replicate 1000 (.fin 1))).m_acceleration.y = .fin a ∧ |a| ≤ 2 ^ (5 : ℤ) :=
  ⟨rfl, by norm_num, by norm_num, by norm_num, by norm_num, by norm_num,
    gravity_accumulation_bounded (craft32 ⟨.fin 0, .fin 2, .fin 0⟩) 0 1 5 rfl (by norm_num)
      (by norm_num) (by norm_num) (by norm_num) (by norm_num) 1000⟩

/-- A finite position component plus a zero displacement: the product of a finite
movement with speed 0 is 0, times a finite delta_time is 0, and adding 0 to a
binary32 value returns it. -/
theorem F32.static_component (p : F32) (m dt : F32) (hp : p.is_finite_value)
    (hm : m.is_finite = true) (hdt : dt.is_finite = true) :
    p + m * F32.fin 0 * dt = p := by
  cases p with
  | nan => exact absurd hp (by simp [F32.is_finite_value])
  | inf s => exact absurd hp (by simp [F32.is_finite_value])
  | fin a =>
    cases m with
    | nan => simp [F32.is_finite] at hm
    | inf s => simp [F32.is_finite] at hm
    | fin b =>
      cases dt with
      | nan => simp [F32.is_finite] at hdt
      | inf s => simp [F32.is_finite] at hdt
      | fin d =>
        rw [F32.mul_fin, mul_zero, F32.round32_zero, F32.mul_fin, zero_mul, F32.round32_zero,
          F32.add_fin, add_zero]
        exact F32.round32_of_is_binary32 hp

theorem Entity32.update_speed (e : Entity32) (delta_time : F32) :
    (e.update delta_time).m_speed = e.m_speed :=
  rfl

theorem Entity32.update_position (e : Entity32) (delta_time : F32) :
    (e.update delta_time).m_position =
      ⟨e.m_position.x + (e.update delta_time).m_movement.x * e.m_speed * delta_time,
        e.m_position.y + (e.update delta_time).m_movement.y * e.m_speed * delta_time,
        e.m_position.z + (e.update delta_time).m_movement.z * e.m_speed * delta_time⟩ :=
  rfl

theorem Entity32.update_position_of_speed_zero (e : Entity32) (delta_time : F32)
    (h_speed : e.m_speed = .fin 0) (h_pos : e.m_position.is_finite_value)
    (h_dt : delta_time.is_finite = true)
    (h_mov : (e.update delta_time).m_movement.is_finite) :
    (e.update delta_time).m_position = e.m_position := by
  rw [Entity32.update_position, h_speed,
    F32.static_component _ _ _ h_pos.1 h_mov.1 h_dt,
    F32.static_component _ _ _ h_pos.2.1 h_mov.2.1 h_dt,
    F32.static_component _ _ _ h_pos.2.2 h_mov.2.2 h_dt]

theorem Entity32.update_calls_position_of_speed_zero (delta_times : List F32) :
    ∀ e : Entity32, e.m_speed = .fin 0 → e.m_position.is_finite_value →
      (∀ dt ∈ delta_times, dt.is_finite = true) →
      (∀ k : ℕ, 0 < k → k ≤ delta_times.length →
        (Entity32.update_calls e (delta_times.take k)).m_movement.is_finite) →
      (Entity32.update_calls e delta_times).m_position = e.m_position := by
  induction delta_times with
  | nil => intro e _ _ _ _; rfl
  | cons dt rest ih =>
    intro e h_speed h_pos h_dt h_mov
    have hfirst : (e.update dt).m_position = e.m_position :=
      Entity32.update_position_of_speed_zero e dt h_speed h_pos
        (h_dt dt (List.mem_cons_self _ _))
        (h_mov 1 Nat.one_pos (by simp))
    rw [Entity32.update_calls_cons,
      ih (e.update dt) (by rw [Entity32.update_speed]; exact h_speed) (by rw [hfirst]; exact h_pos)
        (fun t ht => h_dt t (List.mem_cons_of_mem _ ht))
        (fun k hk hlen => h_mov (k + 1) (Nat.succ_pos k) (by simpa using hlen)),
      hfirst]

theorem Entity32.update_movement (e : Entity32) (delta_time : F32) :
    (e.update delta_time).m_movement =
      ⟨e.m_movement.x + e.m_acceleration.x * delta_time,
        e.m_movement.y + (e.m_acceleration.y + Entity32.m_gravity * delta_time) * delta_time,
        e.m_movement.z + e.m_acceleration.z * delta_time⟩ :=
  rfl

theorem F32.fin_add_inf (a : ℚ) (t : Bool) : (F32.fin a : F32) + F32.inf t = F32.inf t := rfl

theorem F32.inf_mul_fin_zero (s : Bool) : (F32.inf s : F32) * F32.fin 0 = F32.nan := by
  show F32.mul (F32.inf s) (F32.fin 0) = F32.nan
  simp [F32.mul]

theorem F32.nan_mul (x : F32) : (F32.nan : F32) * x = F32.nan := by
  cases x <;> rfl

theorem F32.fin_add_nan (a : ℚ) : (F32.fin a : F32) + F32.nan = F32.nan := rfl

/-- C13, as stated, fails: the asteroid at (3, 1, 0) with speed 0, movement.y = -2^127
and acceleration.y = -2^126 is moved by one update with delta_time 4: its movement
overflows to -infinity, -infinity * 0 is NaN, and the position becomes
(3, NaN, 0). -/
theorem static_obstacle_overflow_counterexample :
    overflowing_asteroid32.m_speed = .fin 0 ∧
    overflowing_asteroid32.m_position = ⟨.fin 3, .fin 1, .fin 0⟩ ∧
    (overflowing_asteroid32.update (.fin 4)).m_position = ⟨.fin 3, .nan, .fin 0⟩ := by
  have h1 : F32.round32 (-1 / 2 * 4) = .fin (-2) := by
    rw [F32.round32_eq_fin 1 (-8388608) (by norm_num) (by norm_num [abs_of_neg])
      (by norm_num [abs_of_neg]) (by norm_num [abs_lt]) (by norm_num [abs_of_pos])]
    norm_num
  have h2 : F32.round32 (-2 ^ 126 + -2) = .fin (-2 ^ 126) := by
    rw [F32.round32_eq_fin 126 (-8388608) (by norm_num) (by norm_num [abs_of_neg])
      (by norm_num [abs_of_neg]) (by norm_num [abs_lt]) (by norm_num [abs_of_pos])]
    norm_num
  have h3 : F32.round32 (-2 ^ 126 * 4) = .inf true := by
    rw [F32.round32_eq_inf 128 (-8388608) (by norm_num) (by norm_num [abs_of_neg])
      (by norm_num [abs_of_neg]) (by norm_num [abs_lt]) (by norm_num [abs_of_pos])]
    norm_num
  have h4 : F32.round32 3 = .fin 3 :=
    F32.round32_of_is_binary32 (F32.is_binary32_of 1 12582912 (by norm_num) (by norm_num)
      (by norm_num [abs_of_pos]) (by norm_num [abs_of_pos]) (by norm_num))
  refine ⟨rfl, rfl, ?_⟩
  rw [Entity32.update_position, Entity32.update_movement]
  simp only [overflowing_asteroid32, asteroid32, Entity32.construct, Entity32.set_animation_state,
    Entity32.set_position, Entity32.set_scale, Entity32.set_movement, Entity32.m_gravity,
    F32.mul_fin, F32.add_fin, zero_mul, mul_zero, add_zero, F32.round32_zero, h1, h2, h3, h4,
    F32.fin_add_inf, F32.inf_mul_fin_zero, F32.nan_mul, F32.fin_add_nan]

theorem F32.is_binary32_neg_one_half : F32.is_binary32 (-1 / 2) :=
  F32.is_binary32_of (-1) (-8388608) (by norm_num) (by norm_num) (by norm_num [abs_of_neg])
    (by norm_num [abs_of_neg]) (by norm_num)

theorem F32.is_binary32_one : F32.is_binary32 1 :=
  F32.is_binary32_of 0 8388608 (by norm_num) (by norm_num) (by norm_num)
    (by norm_num) (by norm_num)

theorem F32.is_binary32_three : F32.is_binary32 3 :=
  F32.is_binary32_of 1 12582912 (by norm_num) (by norm_num) (by norm_num [abs_of_pos])
    (by norm_num [abs_of_pos]) (by norm_num)

theorem resting_asteroid32_update_movement :
    (resting_asteroid32.update (.fin 1)).m_movement = ⟨.fin 0, .fin (-1 / 2), .fin 0⟩ := by
  have h1 : F32.round32 (-1 / 2) = .fin (-1 / 2) :=
    F32.round32_of_is_binary32 F32.is_binary32_neg_one_half
  rw [Entity32.update_movement]
  simp only [resting_asteroid32, obstacle32_at, asteroid32, Entity32.construct, Entity32.set_animation_state,
    Entity32.set_position, Entity32.set_scale, Entity32.set_movement, Entity32.m_gravity,
    Vec3f.splat, F32.mul_fin, F32.add_fin, zero_mul, mul_zero, add_zero, zero_add, mul_one,
    F32.round32_zero, h1]

theorem resting_asteroid32_update_acceleration_y :
    (resting_asteroid32.update (.fin 1)).m_acceleration.y = .fin (-2055209 / 4194304) := by
  have h1 : F32.round32 (-1 / 2) = .fin (-1 / 2) :=
    F32.round32_of_is_binary32 F32.is_binary32_neg_one_half
  have h2 : F32.round32 (-1 / 2 * (2055209 / 2097152)) = .fin (-2055209 / 4194304) := by
    rw [F32.round32_of_is_binary32 (F32.is_binary32_of (-2) (-16441672) (by norm_num)
      (by norm_num) (by norm_num [abs_of_neg]) (by norm_num [abs_of_neg]) (by norm_num))]
    norm_num
  rw [Entity32.update_acceleration_y_eq]
  simp only [resting_asteroid32, obstacle32_at, asteroid32, Entity32.construct, Entity32.set_animation_state,
    Entity32.set_position, Entity32.set_scale, Entity32.set_movement, Entity32.m_gravity,
    Vec3f.splat, F32.mul_fin, F32.add_fin, zero_mul, mul_zero, add_zero, zero_add, mul_one,
    F32.round32_zero, h1, F32.round32_literal_098, h2]

/-- C13, amended: static obstacles do not move while their movement stays finite.
For every entity with speed = 0 and a finite position, and every sequence of finite
delta_time values, if the movement is finite (no infinity, no NaN) after each
`Entity::update` call of the sequence, the position after the calls equals the
initial position; the acceleration and the movement do change (a resting asteroid
gets movement.y = -1/2 and acceleration.y = -0.49f from one update with
delta_time 1). -/
theorem static_obstacle_position (e : Entity32) (delta_times : List F32)
    (h_speed : e.m_speed = .fin 0) (h_pos : e.m_position.is_finite_value)
    (h_dt : ∀ dt ∈ delta_times, dt.is_finite = true)
    (h_mov : ∀ k : ℕ, 0 < k → k ≤ delta_times.length →
      (Entity32.update_calls e (delta_times.take k)).m_movement.is_finite) :
    (Entity32.update_calls e delta_times).m_position = e.m_position ∧
    resting_asteroid32.m_movement.y = .fin 0 ∧
    resting_asteroid32.m_acceleration.y = .fin 0 ∧
    (resting_asteroid32.update (.fin 1)).m_movement.y = .fin (-1 / 2) ∧
    (resting_asteroid32.update (.fin 1)).m_acceleration.y = .fin (-2055209 / 4194304) :=
  ⟨Entity32.update_calls_position_of_speed_zero delta_times e h_speed h_pos h_dt h_mov,
    rfl, rfl, by rw [resting_asteroid32_update_movement], resting_asteroid32_update_acceleration_y⟩

/-- The static position at the resting asteroid at (3, 1, 0) after one update with
delta_time 1: the movement stays finite and the asteroid is still at (3, 1, 0). -/
theorem static_obstacle_position_witness :
    resting_asteroid32.m_speed = .fin 0 ∧
    resting_asteroid32.m_position.is_finite_value ∧
    (∀ dt ∈ [F32.fin 1], dt.is_finite = true) ∧
    (∀ k : ℕ, 0 < k → k ≤ [F32.fin 1].length →
      (Entity32.update_calls resting_asteroid32 ([F32.fin 1].take k)).m_movement.is_finite) ∧
    (Entity32.update_calls resting_asteroid32 [F32.fin 1]).m_position
      = ⟨.fin 3, .fin 1, .fin 0⟩ := by
  have h_pos : resting_asteroid32.m_position.is_finite_value :=
    ⟨F32.is_binary32_three, F32.is_binary32_one, F32.is_binary32_zero⟩
  have h_dt : ∀ dt ∈ [F32.fin 1], dt.is_finite = true := by
    intro dt hdt
    rw [List.mem_singleton.mp hdt]
    rfl
  have h_mov : ∀ k : ℕ, 0 < k → k ≤ [F32.fin 1].length →
      (Entity32.update_calls resting_asteroid32 ([F32.fin 1].take k)).m_movement.is_finite := by
    intro k hk hlen
    have hk1 : k = 1 := le_antisymm (by simpa using hlen) hk
    rw [hk1]
    show (resting_asteroid32.update (.fin 1)).m_movement.is_finite
    rw [resting_asteroid32_update_movement]
    exact ⟨rfl, rfl, rfl⟩
  exact ⟨rfl, h_pos, h_dt, h_mov,
    (static_obstacle_position resting_asteroid32 [F32.fin 1] rfl h_pos h_dt h_mov).1⟩

end LunarLander
